import Mathlib

/-!
# Verification of the post-lifecycle core of the tiktok scheduling dashboard

Shallow embedding of the repository's core: the drizzle schema
(`src/shared/schema.ts`), the storage layer (`DatabaseStorage` in the
routes/storage source file), and the publish / sync-analytics route
handlers.  Pure data is translated to Lean structures; the database is a
`Storage` record of row lists; each route handler becomes a function from
`Storage` to `Storage` plus an outcome.  The remote platform client
(`TikTokApiService` / `MockTikTokApiService`) is a parameter of the
operations that call it, mirroring the spec's interchangeable-client
contract; the repository's mock instance is also defined below.

Timestamps (`new Date()` / `defaultNow()`) are modelled as a `Nat` clock
value passed to each operation.  Numeric columns are `Int`, serial ids are
`Nat`.  Nullable columns are `Option`; columns with a drizzle default are
populated at insert when the insert payload omits them, exactly as the
database would (the zod insert schemas in `schema.ts` mark these fields
`.optional()` and never `.nullable()`, so an explicit SQL NULL for an
enum/boolean column cannot arise from the validated intake path and is not
modelled).
-/

/-- The `status` enum of the `posts` table (`schema.ts`). -/
inductive PostStatus
  | draft
  | scheduled
  | posting
  | posted
  | failed
deriving DecidableEq, Repr

/-- The `privacy_level` enum of the `posts` table (`schema.ts`). -/
inductive PrivacyLevel
  | «public»
  | friends
  | «private»
deriving DecidableEq, Repr

/-- The remote privacy enum of `TikTokPostRequest.post_info.privacy_level`
(`tiktokApi.ts`). -/
inductive RemotePrivacy
  | PUBLIC_TO_EVERYONE
  | MUTUAL_FOLLOW_FRIEND
  | SELF_ONLY
deriving DecidableEq, Repr

/-- A row of the `posts` table (`schema.ts`, `pgTable "posts"`). -/
structure Post where
  id : Nat
  userId : String
  tiktokAccountId : Nat
  title : String
  description : Option String
  hashtags : Option (List String)
  videoUrl : String
  thumbnailUrl : Option String
  status : PostStatus
  scheduledAt : Option Nat
  postedAt : Option Nat
  tiktokPostId : Option String
  privacyLevel : PrivacyLevel
  allowComments : Bool
  allowDuet : Bool
  allowStitch : Bool
  errorMessage : Option String
  createdAt : Nat
  updatedAt : Nat
deriving DecidableEq, Repr

/-- A row of the `tiktok_accounts` table (`schema.ts`). -/
structure TikTokAccount where
  id : Nat
  userId : String
  tiktokUserId : String
  username : String
  displayName : Option String
  followerCount : Int
  followingCount : Int
  likesCount : Int
  videoCount : Int
  accessToken : String
  refreshToken : Option String
  isActive : Bool
deriving DecidableEq, Repr

/-- A row of the `post_analytics` table (`schema.ts`). -/
structure PostAnalyticsRow where
  id : Nat
  postId : Nat
  viewCount : Int
  likeCount : Int
  commentCount : Int
  shareCount : Int
  playDuration : Int
  averagePlayDuration : Int
  profileViewCount : Int
  updatedAt : Nat
deriving DecidableEq, Repr

/-- The validated post insert payload (`insertPostSchema` in `schema.ts`):
every field that is `.optional()` there is an `Option` here; `none` means
the field was absent, so the column default applies on insert. -/
structure InsertPost where
  userId : String
  tiktokAccountId : Nat
  title : String
  description : Option String := none
  hashtags : Option (List String) := none
  videoUrl : String
  thumbnailUrl : Option String := none
  status : Option PostStatus := none
  scheduledAt : Option Nat := none
  postedAt : Option Nat := none
  tiktokPostId : Option String := none
  privacyLevel : Option PrivacyLevel := none
  allowComments : Option Bool := none
  allowDuet : Option Bool := none
  allowStitch : Option Bool := none
  errorMessage : Option String := none
deriving DecidableEq, Repr

/-- A `Partial<InsertPost>` update payload as the server actually builds
them: the publish route updates only `status`, `tiktokPostId`, `postedAt`
and `errorMessage` (no server call site passes any other field, and none
passes an explicit null).  `none` means the field is absent and the stored
value is left untouched, which is drizzle's `.set` behaviour for omitted
fields. -/
structure PostUpdate where
  status : Option PostStatus := none
  tiktokPostId : Option String := none
  postedAt : Option Nat := none
  errorMessage : Option String := none
deriving DecidableEq, Repr

/-- The analytics upsert payload (`insertPostAnalyticsSchema` shape; the
sync-analytics route passes `postId` plus six of the seven metric fields,
never `playDuration`). -/
structure InsertPostAnalytics where
  postId : Nat
  viewCount : Option Int := none
  likeCount : Option Int := none
  commentCount : Option Int := none
  shareCount : Option Int := none
  playDuration : Option Int := none
  averagePlayDuration : Option Int := none
  profileViewCount : Option Int := none
deriving DecidableEq, Repr

/-- The database state: the three tables the core reads and writes, plus
the serial-id counters.  The `users`, `sessions` and `upload_sessions`
tables are never touched by the publish or sync-analytics paths and are
omitted. -/
structure Storage where
  posts : List Post
  accounts : List TikTokAccount
  analytics : List PostAnalyticsRow
  nextPostId : Nat
  nextAnalyticsId : Nat
deriving DecidableEq, Repr

def emptyStorage : Storage :=
  { posts := [], accounts := [], analytics := [], nextPostId := 1, nextAnalyticsId := 1 }

/-! ## Storage operations (`DatabaseStorage`) -/

/-- Translation of `DatabaseStorage.getPost`: `select ... where eq(posts.id, id)`. -/
def getPost (st : Storage) (id : Nat) : Option Post :=
  st.posts.find? fun p => p.id == id

/-- Translation of `DatabaseStorage.getPosts`: `select ... where eq(posts.userId, userId)`.
The source also orders by `createdAt` descending; no claim depends on the
order, so rows are kept in table order. -/
def getPosts (st : Storage) (userId : String) : List Post :=
  st.posts.filter fun p => p.userId == userId

/-- Translation of `DatabaseStorage.getTikTokAccount`: lookup by account id.  Note the
query filters on `id` only — it does not consult `isActive`. -/
def getTikTokAccount (st : Storage) (id : Nat) : Option TikTokAccount :=
  st.accounts.find? fun a => a.id == id

/-- Materialise an insert payload into a `posts` row, applying the column
defaults from `schema.ts` (`status` defaults to `draft`, `privacyLevel` to
`public`, the three interaction toggles to `true`, timestamps to now). -/
def postOfInsert (id now : Nat) (d : InsertPost) : Post :=
  { id := id
    userId := d.userId
    tiktokAccountId := d.tiktokAccountId
    title := d.title
    description := d.description
    hashtags := d.hashtags
    videoUrl := d.videoUrl
    thumbnailUrl := d.thumbnailUrl
    status := d.status.getD PostStatus.draft
    scheduledAt := d.scheduledAt
    postedAt := d.postedAt
    tiktokPostId := d.tiktokPostId
    privacyLevel := d.privacyLevel.getD PrivacyLevel.«public»
    allowComments := d.allowComments.getD true
    allowDuet := d.allowDuet.getD true
    allowStitch := d.allowStitch.getD true
    errorMessage := d.errorMessage
    createdAt := now
    updatedAt := now }

/-- Translation of `DatabaseStorage.createPost`: insert the payload, returning the new
row. -/
def createPost (now : Nat) (st : Storage) (d : InsertPost) : Storage × Post :=
  let p := postOfInsert st.nextPostId now d
  ({ st with posts := st.posts ++ [p], nextPostId := st.nextPostId + 1 }, p)

/-- Apply a partial update to a row: provided fields are overwritten,
absent fields kept, and `updatedAt` is stamped (`set { ...updates,
updatedAt: new Date() }`). -/
def applyPostUpdate (now : Nat) (u : PostUpdate) (p : Post) : Post :=
  { p with
    status := u.status.getD p.status
    tiktokPostId := match u.tiktokPostId with | some v => some v | none => p.tiktokPostId
    postedAt := match u.postedAt with | some v => some v | none => p.postedAt
    errorMessage := match u.errorMessage with | some v => some v | none => p.errorMessage
    updatedAt := now }

/-- Translation of `DatabaseStorage.updatePost`: `update ... where eq(posts.id, id)
returning`; the returned row is `undefined` (here `none`) when no row
matched. -/
def updatePost (now : Nat) (st : Storage) (id : Nat) (u : PostUpdate) :
    Storage × Option Post :=
  let rows := st.posts.map fun p => if p.id == id then applyPostUpdate now u p else p
  ({ st with posts := rows }, rows.find? fun p => p.id == id)

/-- Translation of `DatabaseStorage.getPostAnalytics`: lookup by `postId`. -/
def getPostAnalytics (st : Storage) (postId : Nat) : Option PostAnalyticsRow :=
  st.analytics.find? fun r => r.postId == postId

/-- Materialise an analytics insert payload into a row, applying the
numeric column defaults of `0` and stamping `updatedAt`. -/
def analyticsRowOfInsert (id now : Nat) (d : InsertPostAnalytics) : PostAnalyticsRow :=
  { id := id
    postId := d.postId
    viewCount := d.viewCount.getD 0
    likeCount := d.likeCount.getD 0
    commentCount := d.commentCount.getD 0
    shareCount := d.shareCount.getD 0
    playDuration := d.playDuration.getD 0
    averagePlayDuration := d.averagePlayDuration.getD 0
    profileViewCount := d.profileViewCount.getD 0
    updatedAt := now }

/-- The `onConflictDoUpdate` set clause of `upsertPostAnalytics`:
`set { ...analyticsData, updatedAt: new Date() }` — every field present in
the payload is overwritten, `playDuration` (never passed) is kept. -/
def applyAnalyticsUpdate (now : Nat) (d : InsertPostAnalytics) (r : PostAnalyticsRow) :
    PostAnalyticsRow :=
  { r with
    postId := d.postId
    viewCount := d.viewCount.getD r.viewCount
    likeCount := d.likeCount.getD r.likeCount
    commentCount := d.commentCount.getD r.commentCount
    shareCount := d.shareCount.getD r.shareCount
    playDuration := d.playDuration.getD r.playDuration
    averagePlayDuration := d.averagePlayDuration.getD r.averagePlayDuration
    profileViewCount := d.profileViewCount.getD r.profileViewCount
    updatedAt := now }

/-- Translation of `DatabaseStorage.upsertPostAnalytics`: insert, on conflict on
`postAnalytics.postId` overwrite the conflicting row with the payload
fields plus a fresh `updatedAt`. -/
def upsertPostAnalytics (now : Nat) (st : Storage) (d : InsertPostAnalytics) :
    Storage × Option PostAnalyticsRow :=
  if st.analytics.any (fun r => r.postId == d.postId) then
    let rows := st.analytics.map fun r =>
      if r.postId == d.postId then applyAnalyticsUpdate now d r else r
    ({ st with analytics := rows }, rows.find? fun r => r.postId == d.postId)
  else
    let row := analyticsRowOfInsert st.nextAnalyticsId now d
    ({ st with analytics := st.analytics ++ [row],
               nextAnalyticsId := st.nextAnalyticsId + 1 }, some row)

/-! ## Remote platform client and the publish route -/

/-- The `post_info` payload of `TikTokPostRequest` (`tiktokApi.ts`),
restricted to the fields the publish route builds. -/
structure PostInfo where
  title : String
  privacy_level : RemotePrivacy
  disable_duet : Bool
  disable_comment : Bool
  disable_stitch : Bool
deriving DecidableEq, Repr

/-- The remote publish call: `accessToken → videoUrl → postInfo →`
either an error message (a thrown exception's `.message`) or the
`data.publish_id` of the `TikTokPostResponse`.  `publish` is parameterised
over this behaviour: the spec's client contract makes the real service and
the deterministic stand-in interchangeable, and the claims quantify over
the stand-in's behaviour. -/
def PublishClient : Type := String → String → PostInfo → Except String String

/-- Translation of `MockTikTokApiService.postVideoFromUrl`: always succeeds with
`mock_post_` followed by the current time (`Date.now()`). -/
def mockPostVideoFromUrl (now : Nat) : PublishClient :=
  fun _ _ _ => Except.ok ("mock_post_" ++ toString now)

/-- The `postInfo` object built inline in the publish route
(routes source, lines 200–208): the privacy conditional chain and the
three negated interaction toggles. -/
def buildPostInfo (post : Post) : PostInfo :=
  { title := post.title
    privacy_level :=
      if post.privacyLevel = PrivacyLevel.«public» then RemotePrivacy.PUBLIC_TO_EVERYONE
      else if post.privacyLevel = PrivacyLevel.friends then RemotePrivacy.MUTUAL_FOLLOW_FRIEND
      else RemotePrivacy.SELF_ONLY
    disable_duet := !post.allowDuet
    disable_comment := !post.allowComments
    disable_stitch := !post.allowStitch }

/-- The response the publish route hands back: 404 for a missing post or
account, the JSON of the updated post on success, or the 500 path carrying
the re-raised error's message (the inner catch persists `failed` and
re-throws; the outer catch answers with that message). -/
inductive PublishOutcome
  | notFoundPost
  | notFoundAccount
  | ok (updated : Option Post)
  | errorRaised (msg : String)
deriving DecidableEq, Repr

/-- Events of one publish invocation, in program order, each carrying the
storage state visible at that moment: the commit of the `posting` write,
the start of the remote call, and the commit of the final write. -/
inductive PubEvent
  | wrotePosting (snapshot : Storage)
  | remoteCall (snapshot : Storage)
  | wroteFinal (s : PostStatus) (snapshot : Storage)
deriving DecidableEq, Repr

/-- The `POST /api/posts/:id/publish` handler (routes source, lines
177–235): load post (404 if absent), load account (404 if absent — the
route performs no `isActive` check), persist `status: posting`, build the
post info, call the client with the fully-qualified video URL, then either
persist the success fields and answer with the updated row, or persist
`failed` plus the error message and re-raise.  `baseUrl` stands for
`req.protocol://req.get(host)`. -/
def publish (client : PublishClient) (baseUrl : String) (now : Nat)
    (st : Storage) (postId : Nat) : Storage × PublishOutcome × List PubEvent :=
  match getPost st postId with
  | none => (st, PublishOutcome.notFoundPost, [])
  | some post =>
    match getTikTokAccount st post.tiktokAccountId with
    | none => (st, PublishOutcome.notFoundAccount, [])
    | some account =>
      let st1 := (updatePost now st postId { status := some PostStatus.posting }).1
      match client account.accessToken (baseUrl ++ post.videoUrl) (buildPostInfo post) with
      | Except.ok publishId =>
        let res := updatePost now st1 postId
          { status := some PostStatus.posted
            tiktokPostId := some publishId
            postedAt := some now }
        (res.1, PublishOutcome.ok res.2,
         [PubEvent.wrotePosting st1, PubEvent.remoteCall st1,
          PubEvent.wroteFinal PostStatus.posted res.1])
      | Except.error msg =>
        let st2 := (updatePost now st1 postId
          { status := some PostStatus.failed, errorMessage := some msg }).1
        (st2, PublishOutcome.errorRaised msg,
         [PubEvent.wrotePosting st1, PubEvent.remoteCall st1,
          PubEvent.wroteFinal PostStatus.failed st2])

/-! ## Remote metrics client and the sync-analytics route -/

/-- The `metrics` object of `TikTokAnalytics` (`tiktokApi.ts`). -/
structure Metrics where
  likes : Int
  comments : Int
  shares : Int
  views : Int
  profile_view : Int
  video_view_duration_avg : Int
deriving DecidableEq, Repr

/-- The remote metrics call `getVideoAnalytics`: `accessToken → videoIds →`
either a thrown error's message or the returned
`Record<string, TikTokAnalytics>`, modelled as an association list from
remote video id to metrics (ids the remote service does not recognise are
simply absent from the mapping). -/
def MetricsClient : Type := String → List String → Except String (List (String × Metrics))

/-- Translation of `MockTikTokApiService.getVideoAnalytics`: never fails and returns an
entry for every requested id; the metric values come from `Math.random()`,
abstracted here as the function `gen`. -/
def mockGetVideoAnalytics (gen : String → Metrics) : MetricsClient :=
  fun _ ids => Except.ok (ids.map fun i => (i, gen i))

/-- JavaScript string truthiness as the routes use it on
`post.tiktokPostId`: null and the empty string are falsy. -/
def truthyStr : Option String → Bool
  | none => false
  | some s => !(s == "")

/-- The filter of the sync-analytics route:
`posts.filter(p => p.status === 'posted' && p.tiktokPostId)`. -/
def postedPosts (st : Storage) (userId : String) : List Post :=
  (getPosts st userId).filter fun p =>
    p.status == PostStatus.posted && truthyStr p.tiktokPostId

/-- One iteration of the sync-analytics loop (routes source, lines
259–285): skip when `tiktokPostId` is falsy, skip silently when the
account is missing, call the client inside a try/catch (an error is logged
and the loop continues), look the post's remote id up in the returned
mapping, and upsert only when an entry with metrics is present. -/
def syncOne (client : MetricsClient) (now : Nat) (st : Storage) (post : Post) : Storage :=
  if truthyStr post.tiktokPostId = false then st
  else
    match post.tiktokPostId with
    | none => st
    | some tpid =>
      match getTikTokAccount st post.tiktokAccountId with
      | none => st
      | some account =>
        match client account.accessToken [tpid] with
        | Except.error _ => st
        | Except.ok analyticsData =>
          match (analyticsData.find? fun e => e.1 == tpid).map (fun e => e.2) with
          | none => st
          | some metrics =>
            (upsertPostAnalytics now st
              { postId := post.id
                viewCount := some metrics.views
                likeCount := some metrics.likes
                commentCount := some metrics.comments
                shareCount := some metrics.shares
                profileViewCount := some metrics.profile_view
                averagePlayDuration := some metrics.video_view_duration_avg }).1

/-- The `POST /api/sync-analytics` handler: iterate the posted posts,
apply `syncOne` to each, and answer with the fixed success message —
per-post failures never reach the response. -/
def syncAnalytics (client : MetricsClient) (now : Nat) (st : Storage) (userId : String) :
    Storage × String :=
  ((postedPosts st userId).foldl (fun s p => syncOne client now s p) st,
   "Analytics synced successfully")

/-! ## Spec-side definitions used to state the claims -/

/-- Modelled from the spec: the fixed privacy-level table of §4.2 step 4 /
§8 — `public` to PUBLIC_TO_EVERYONE, `friends` to MUTUAL_FOLLOW_FRIEND,
`private` to SELF_ONLY.  Stated separately from `buildPostInfo` so the
code's conditional chain can be compared against it. -/
def privacyTableSpec : PrivacyLevel → RemotePrivacy
  | PrivacyLevel.«public» => RemotePrivacy.PUBLIC_TO_EVERYONE
  | PrivacyLevel.friends => RemotePrivacy.MUTUAL_FOLLOW_FRIEND
  | PrivacyLevel.«private» => RemotePrivacy.SELF_ONLY

/-- The §8 round-trip invariant on one row: `status == posted` iff
`tiktokPostId` and `postedAt` are both set. -/
def postedIffIds (p : Post) : Prop :=
  p.status = PostStatus.posted ↔ (p.tiktokPostId.isSome = true ∧ p.postedAt.isSome = true)

instance (p : Post) : Decidable (postedIffIds p) := by
  unfold postedIffIds; infer_instance

/-- The forward half of the round-trip invariant — the part the publish
path actually maintains. -/
def postedImpliesIds (p : Post) : Prop :=
  p.status = PostStatus.posted → (p.tiktokPostId.isSome = true ∧ p.postedAt.isSome = true)

instance (p : Post) : Decidable (postedImpliesIds p) := by
  unfold postedImpliesIds; infer_instance

/-- At most one `post_analytics` row for a given post id. -/
def atMostOneRow (st : Storage) (postId : Nat) : Prop :=
  (st.analytics.filter fun r => r.postId == postId).length ≤ 1

instance (st : Storage) (postId : Nat) : Decidable (atMostOneRow st postId) := by
  unfold atMostOneRow; infer_instance

/-! ## Test fixtures used by witnesses and counterexamples -/

def testPost : Post :=
  { id := 1, userId := "u1", tiktokAccountId := 1, title := "t", description := none,
    hashtags := none, videoUrl := "/uploads/v.mp4", thumbnailUrl := none,
    status := PostStatus.draft, scheduledAt := none, postedAt := none, tiktokPostId := none,
    privacyLevel := PrivacyLevel.«public», allowComments := true, allowDuet := true,
    allowStitch := true, errorMessage := none, createdAt := 0, updatedAt := 0 }

def testAccount : TikTokAccount :=
  { id := 1, userId := "u1", tiktokUserId := "tt1", username := "user1", displayName := none,
    followerCount := 0, followingCount := 0, likesCount := 0, videoCount := 0,
    accessToken := "tok", refreshToken := none, isActive := true }

def testStore : Storage :=
  { posts := [testPost], accounts := [testAccount], analytics := [],
    nextPostId := 2, nextAnalyticsId := 1 }

def failedPost : Post :=
  { testPost with status := PostStatus.failed, errorMessage := some "previous failure" }

def failedStore : Storage := { testStore with posts := [failedPost] }

def postedPost : Post :=
  { testPost with status := PostStatus.posted, tiktokPostId := some "old",
                  postedAt := some 1 }

def postedStore : Storage := { testStore with posts := [postedPost] }

def inactiveAccount : TikTokAccount := { testAccount with isActive := false }

def inactiveStore : Storage := { testStore with accounts := [inactiveAccount] }

def badInsert : InsertPost :=
  { userId := "u1", tiktokAccountId := 1, title := "t", videoUrl := "/v",
    status := some PostStatus.posted }

def sampleMetricsInsert : InsertPostAnalytics :=
  { postId := 1, viewCount := some 10, likeCount := some 2, commentCount := some 3,
    shareCount := some 4, profileViewCount := some 5, averagePlayDuration := some 6 }

def syncPost (i : Nat) (tp : String) : Post :=
  { testPost with id := i, tiktokPostId := some tp, status := PostStatus.posted,
                  postedAt := some 1 }

def syncStore : Storage :=
  { posts := [syncPost 1 "v1", syncPost 2 "v2", syncPost 3 "v3"],
    accounts := [testAccount], analytics := [], nextPostId := 4, nextAnalyticsId := 1 }

def sampleMetrics : Metrics :=
  { likes := 1, comments := 2, shares := 3, views := 4, profile_view := 5,
    video_view_duration_avg := 6 }

/-- A stand-in metrics client that fails for the post with remote id `v2`
and succeeds for every other request. -/
def failingOneClient : MetricsClient := fun _ ids =>
  if ids = ["v2"] then Except.error "service down"
  else Except.ok (ids.map fun i => (i, sampleMetrics))

/-- A stand-in metrics client that recognises no remote video id: it
always succeeds with an empty mapping. -/
def emptyMapClient : MetricsClient := fun _ _ => Except.ok []

/-! ## Generic list lemmas for keyed row lookup and keyed row update -/

theorem find?_map_keyed_self {α : Type} (key : α → Nat) (f : α → α) (i : Nat)
    (hf : ∀ a, key a = i → key (f a) = key a) (l : List α) :
    ((l.map fun a => if key a == i then f a else a).find? fun a => key a == i) =
      (l.find? fun a => key a == i).map f := by
  induction l with
  | nil => rfl
  | cons a t ih =>
    rw [List.map_cons, List.find?_cons, List.find?_cons]
    by_cases ha : key a = i
    · have h1 : (key a == i) = true := by simp [ha]
      have hfa : (key (f a) == i) = true := by simp [(hf a ha).trans ha]
      simp [h1, hfa]
    · have h1 : (key a == i) = false := by simp [ha]
      simp only [h1, Bool.false_eq_true, if_false]
      simp_all

theorem find?_map_keyed_other {α : Type} (key : α → Nat) (f : α → α) (i j : Nat)
    (hij : i ≠ j) (hf : ∀ a, key a = i → key (f a) = key a) (l : List α) :
    ((l.map fun a => if key a == i then f a else a).find? fun a => key a == j) =
      l.find? fun a => key a == j := by
  induction l with
  | nil => rfl
  | cons a t ih =>
    rw [List.map_cons, List.find?_cons, List.find?_cons]
    by_cases ha : key a = i
    · have h1 : (key a == i) = true := by simp [ha]
      have hfa : key (f a) = i := (hf a ha).trans ha
      have haj : (key a == j) = false := by simp [ha]; exact hij
      have hfaj : (key (f a) == j) = false := by simp [hfa]; exact hij
      simp [h1, haj, hfaj, ih, -List.find?_map, -beq_iff_eq]
    · have h1 : (key a == i) = false := by simp [ha]
      by_cases haj : key a = j
      · have h2 : (key a == j) = true := by simp [haj]
        simp [h1, h2, -List.find?_map, -beq_iff_eq]
      · have h2 : (key a == j) = false := by simp [haj]
        simp [h1, h2, ih, -List.find?_map, -beq_iff_eq]

theorem length_filter_map_keyed {α : Type} (key : α → Nat) (f : α → α) (i j : Nat)
    (hf : ∀ a, key a = i → key (f a) = key a) (l : List α) :
    ((l.map fun a => if key a == i then f a else a).filter fun a => key a == j).length =
      (l.filter fun a => key a == j).length := by
  induction l with
  | nil => rfl
  | cons a t ih =>
    rw [List.map_cons, List.filter_cons, List.filter_cons]
    by_cases ha : key a = i
    · have h1 : (key a == i) = true := by simp [ha]
      have hfa : key (f a) = key a := hf a ha
      by_cases haj : key a = j
      · have h2 : (key a == j) = true := by simp [haj]
        have h3 : (key (f a) == j) = true := by simp [hfa, haj]
        simp [h1, h2, h3, ih, -beq_iff_eq]
      · have h2 : (key a == j) = false := by simp [haj]
        have h3 : (key (f a) == j) = false := by simp [hfa]; exact haj
        simp [h1, h2, h3, ih, -beq_iff_eq]
    · have h1 : (key a == i) = false := by simp [ha]
      by_cases haj : key a = j
      · have h2 : (key a == j) = true := by simp [haj]
        simp [h1, h2, ih, -beq_iff_eq]
      · have h2 : (key a == j) = false := by simp [haj]
        simp [h1, h2, ih, -beq_iff_eq]

/-! ## Basic storage lemmas -/

theorem applyPostUpdate_id (now : Nat) (u : PostUpdate) (p : Post) :
    (applyPostUpdate now u p).id = p.id := rfl

theorem updatePost_accounts (now : Nat) (st : Storage) (i : Nat) (u : PostUpdate) :
    ((updatePost now st i u).1).accounts = st.accounts := rfl

theorem updatePost_analytics (now : Nat) (st : Storage) (i : Nat) (u : PostUpdate) :
    ((updatePost now st i u).1).analytics = st.analytics := rfl

theorem getPost_updatePost_self (now : Nat) (st : Storage) (i : Nat) (u : PostUpdate) :
    getPost ((updatePost now st i u).1) i = (getPost st i).map (applyPostUpdate now u) := by
  unfold getPost updatePost
  exact find?_map_keyed_self Post.id (applyPostUpdate now u) i (fun a _ => rfl) st.posts

theorem getPost_updatePost_other (now : Nat) (st : Storage) (i j : Nat) (u : PostUpdate)
    (hij : i ≠ j) :
    getPost ((updatePost now st i u).1) j = getPost st j := by
  unfold getPost updatePost
  exact find?_map_keyed_other Post.id (applyPostUpdate now u) i j hij (fun a _ => rfl) st.posts

theorem updatePost_snd (now : Nat) (st : Storage) (i : Nat) (u : PostUpdate) :
    (updatePost now st i u).2 = (getPost st i).map (applyPostUpdate now u) := by
  unfold updatePost
  exact find?_map_keyed_self Post.id (applyPostUpdate now u) i (fun a _ => rfl) st.posts

theorem getTikTokAccount_updatePost (now : Nat) (st : Storage) (i : Nat) (u : PostUpdate)
    (aid : Nat) :
    getTikTokAccount ((updatePost now st i u).1) aid = getTikTokAccount st aid := rfl

theorem upsertPostAnalytics_posts (now : Nat) (st : Storage) (d : InsertPostAnalytics) :
    ((upsertPostAnalytics now st d).1).posts = st.posts := by
  unfold upsertPostAnalytics
  split <;> rfl

theorem upsertPostAnalytics_accounts (now : Nat) (st : Storage) (d : InsertPostAnalytics) :
    ((upsertPostAnalytics now st d).1).accounts = st.accounts := by
  unfold upsertPostAnalytics
  split <;> rfl

theorem analyticsRowOfInsert_postId (id now : Nat) (d : InsertPostAnalytics) :
    (analyticsRowOfInsert id now d).postId = d.postId := rfl

theorem applyAnalyticsUpdate_postId (now : Nat) (d : InsertPostAnalytics)
    (r : PostAnalyticsRow) : (applyAnalyticsUpdate now d r).postId = d.postId := rfl

theorem getPostAnalytics_upsert_other (now : Nat) (st : Storage) (d : InsertPostAnalytics)
    (q : Nat) (hq : d.postId ≠ q) :
    getPostAnalytics ((upsertPostAnalytics now st d).1) q = getPostAnalytics st q := by
  unfold getPostAnalytics upsertPostAnalytics
  split
  · exact find?_map_keyed_other PostAnalyticsRow.postId (applyAnalyticsUpdate now d)
      d.postId q hq (fun a ha => by rw [applyAnalyticsUpdate_postId, ha]) st.analytics
  · simp only [List.find?_append]
    have h0 : (([analyticsRowOfInsert st.nextAnalyticsId now d]).find?
        fun r => r.postId == q) = none := by
      rw [List.find?_cons_of_neg _ (by simp [analyticsRowOfInsert_postId, hq])]
      rfl
    rw [h0]
    cases st.analytics.find? fun r => r.postId == q <;> rfl

/-! ## Lemmas about one sync-analytics iteration -/

theorem syncOne_posts (c : MetricsClient) (now : Nat) (st : Storage) (p : Post) :
    (syncOne c now st p).posts = st.posts := by
  unfold syncOne
  repeat' split
  all_goals first | rfl | exact upsertPostAnalytics_posts _ _ _

theorem syncOne_accounts (c : MetricsClient) (now : Nat) (st : Storage) (p : Post) :
    (syncOne c now st p).accounts = st.accounts := by
  unfold syncOne
  repeat' split
  all_goals first | rfl | exact upsertPostAnalytics_accounts _ _ _

theorem syncOne_analytics_other (c : MetricsClient) (now : Nat) (st : Storage) (p : Post)
    (pid : Nat) (h : p.id ≠ pid) :
    getPostAnalytics (syncOne c now st p) pid = getPostAnalytics st pid := by
  unfold syncOne
  repeat' split
  all_goals first | rfl | exact getPostAnalytics_upsert_other _ _ _ _ h

theorem foldSync_posts (c : MetricsClient) (now : Nat) (l : List Post) :
    ∀ st : Storage, ((l.foldl (fun s p => syncOne c now s p) st).posts) = st.posts := by
  induction l with
  | nil => intro st; rfl
  | cons a t ih =>
    intro st
    rw [List.foldl_cons, ih, syncOne_posts]

theorem foldSync_accounts (c : MetricsClient) (now : Nat) (l : List Post) :
    ∀ st : Storage, ((l.foldl (fun s p => syncOne c now s p) st).accounts) = st.accounts := by
  induction l with
  | nil => intro st; rfl
  | cons a t ih =>
    intro st
    rw [List.foldl_cons, ih, syncOne_accounts]

theorem foldSync_analytics_other (c : MetricsClient) (now : Nat) (l : List Post) :
    ∀ st : Storage, ∀ pid : Nat, (∀ q ∈ l, q.id ≠ pid) →
      getPostAnalytics (l.foldl (fun s p => syncOne c now s p) st) pid =
        getPostAnalytics st pid := by
  induction l with
  | nil => intro st pid _; rfl
  | cons a t ih =>
    intro st pid hq
    rw [List.foldl_cons, ih _ pid fun q hmem => hq q (List.mem_cons_of_mem a hmem),
      syncOne_analytics_other _ _ _ _ _ (hq a (List.mem_cons_self a t))]

theorem getTikTokAccount_foldSync (c : MetricsClient) (now : Nat) (l : List Post)
    (st : Storage) (aid : Nat) :
    getTikTokAccount (l.foldl (fun s p => syncOne c now s p) st) aid =
      getTikTokAccount st aid := by
  unfold getTikTokAccount
  rw [foldSync_accounts]

/-! ## The shape of the updates performed by the publish route -/

theorem applyPostUpdate_posting (now : Nat) (p : Post) :
    applyPostUpdate now { status := some PostStatus.posting } p =
      { p with status := PostStatus.posting, updatedAt := now } := rfl

theorem applyPostUpdate_success (now : Nat) (publishId : String) (p : Post) :
    applyPostUpdate now
        { status := some PostStatus.posted, tiktokPostId := some publishId,
          postedAt := some now } p =
      { p with status := PostStatus.posted, tiktokPostId := some publishId,
               postedAt := some now, updatedAt := now } := rfl

theorem applyPostUpdate_failure (now : Nat) (msg : String) (p : Post) :
    applyPostUpdate now { status := some PostStatus.failed, errorMessage := some msg } p =
      { p with status := PostStatus.failed, errorMessage := some msg,
               updatedAt := now } := rfl

/-! ## Unfolding lemmas for the publish route -/

theorem publish_ok_spec (client : PublishClient) (baseUrl : String) (now : Nat)
    (st : Storage) (postId : Nat) (p : Post) (account : TikTokAccount) (publishId : String)
    (hp : getPost st postId = some p)
    (ha : getTikTokAccount st p.tiktokAccountId = some account)
    (hc : client account.accessToken (baseUrl ++ p.videoUrl) (buildPostInfo p) =
      Except.ok publishId) :
    publish client baseUrl now st postId =
      ((updatePost now (updatePost now st postId { status := some PostStatus.posting }).1 postId
          { status := some PostStatus.posted, tiktokPostId := some publishId,
            postedAt := some now }).1,
       PublishOutcome.ok
         (updatePost now (updatePost now st postId { status := some PostStatus.posting }).1 postId
           { status := some PostStatus.posted, tiktokPostId := some publishId,
             postedAt := some now }).2,
       [PubEvent.wrotePosting (updatePost now st postId { status := some PostStatus.posting }).1,
        PubEvent.remoteCall (updatePost now st postId { status := some PostStatus.posting }).1,
        PubEvent.wroteFinal PostStatus.posted
          (updatePost now (updatePost now st postId
              { status := some PostStatus.posting }).1 postId
            { status := some PostStatus.posted, tiktokPostId := some publishId,
              postedAt := some now }).1]) := by
  simp only [publish, hp, ha, hc]

theorem publish_error_spec (client : PublishClient) (baseUrl : String) (now : Nat)
    (st : Storage) (postId : Nat) (p : Post) (account : TikTokAccount) (msg : String)
    (hp : getPost st postId = some p)
    (ha : getTikTokAccount st p.tiktokAccountId = some account)
    (hc : client account.accessToken (baseUrl ++ p.videoUrl) (buildPostInfo p) =
      Except.error msg) :
    publish client baseUrl now st postId =
      ((updatePost now (updatePost now st postId { status := some PostStatus.posting }).1 postId
          { status := some PostStatus.failed, errorMessage := some msg }).1,
       PublishOutcome.errorRaised msg,
       [PubEvent.wrotePosting (updatePost now st postId { status := some PostStatus.posting }).1,
        PubEvent.remoteCall (updatePost now st postId { status := some PostStatus.posting }).1,
        PubEvent.wroteFinal PostStatus.failed
          (updatePost now (updatePost now st postId
              { status := some PostStatus.posting }).1 postId
            { status := some PostStatus.failed, errorMessage := some msg }).1]) := by
  simp only [publish, hp, ha, hc]

theorem publish_notFoundPost_spec (client : PublishClient) (baseUrl : String) (now : Nat)
    (st : Storage) (postId : Nat) (hp : getPost st postId = none) :
    publish client baseUrl now st postId = (st, PublishOutcome.notFoundPost, []) := by
  simp only [publish, hp]

theorem publish_notFoundAccount_spec (client : PublishClient) (baseUrl : String) (now : Nat)
    (st : Storage) (postId : Nat) (p : Post)
    (hp : getPost st postId = some p)
    (ha : getTikTokAccount st p.tiktokAccountId = none) :
    publish client baseUrl now st postId = (st, PublishOutcome.notFoundAccount, []) := by
  simp only [publish, hp, ha]

/-! ## C9 — privacy-level mapping -/

/-- C9: the privacy-level mapping used by publish is total and fixed for
every post regardless of its other fields: `public` maps to
PUBLIC_TO_EVERYONE, `friends` to MUTUAL_FOLLOW_FRIEND, `private` to
SELF_ONLY — the route's conditional chain agrees with the spec's fixed
table on all posts. -/
theorem buildPostInfo_privacy_total (p : Post) :
    (buildPostInfo p).privacy_level = privacyTableSpec p.privacyLevel := by
  cases h : p.privacyLevel <;> simp [buildPostInfo, privacyTableSpec, h]

/-! ## C2 — failing remote publish call -/

/-- C2: for every existing post with an existing account, if the remote
client's publish call fails then publish persists status `failed` with the
failure's message as the non-null `errorMessage`, leaves `tiktokPostId` at
its prior value (so a null remote id stays null), and the failure is
propagated to the caller — both the status write and the re-raise
happen. -/
theorem publish_failure_persists_and_raises
    (client : PublishClient) (baseUrl : String) (now : Nat) (st : Storage) (postId : Nat)
    (p : Post) (account : TikTokAccount) (msg : String)
    (hp : getPost st postId = some p)
    (ha : getTikTokAccount st p.tiktokAccountId = some account)
    (hc : client account.accessToken (baseUrl ++ p.videoUrl) (buildPostInfo p) =
      Except.error msg) :
    (publish client baseUrl now st postId).2.1 = PublishOutcome.errorRaised msg ∧
    getPost (publish client baseUrl now st postId).1 postId =
      some { p with status := PostStatus.failed, errorMessage := some msg,
                    updatedAt := now } ∧
    (getPost (publish client baseUrl now st postId).1 postId).map Post.tiktokPostId =
      some p.tiktokPostId := by
  have heq := publish_error_spec client baseUrl now st postId p account msg hp ha hc
  rw [heq]
  dsimp only
  refine ⟨rfl, ?_, ?_⟩ <;>
    (rw [getPost_updatePost_self, getPost_updatePost_self, hp]; rfl)

theorem publish_failure_witness :
    (publish (fun _ _ _ => Except.error "boom") "http://h" 5 testStore 1).2.1 =
      PublishOutcome.errorRaised "boom" ∧
    getPost (publish (fun _ _ _ => Except.error "boom") "http://h" 5 testStore 1).1 1 =
      some { testPost with status := PostStatus.failed, errorMessage := some "boom",
                           updatedAt := 5 } ∧
    (getPost (publish (fun _ _ _ => Except.error "boom") "http://h" 5 testStore 1).1 1).map
        Post.tiktokPostId = some testPost.tiktokPostId :=
  publish_failure_persists_and_raises _ "http://h" 5 testStore 1 testPost testAccount
    "boom" rfl rfl rfl

/-! ## C3 — successful remote publish call -/

/-- C3 counterexample: re-publishing a `failed` post (non-null
errorMessage) with a succeeding client yields a `posted` post whose
errorMessage is NOT cleared to null — the success update never touches
`errorMessage`, refuting the claimed clearing. -/
theorem publish_success_keeps_stale_errorMessage :
    (getPost (publish (fun _ _ _ => Except.ok "pub1") "h" 7 failedStore 1).1 1).map
        Post.errorMessage = some (some "previous failure") ∧
    (getPost (publish (fun _ _ _ => Except.ok "pub1") "h" 7 failedStore 1).1 1).map
        Post.status = some PostStatus.posted := by decide

/-- C3 (amended): for every existing post with an existing account, a
succeeding remote publish call makes publish persist status `posted`, set
`tiktokPostId` to the client's result, set `postedAt`, and return the
updated post; `errorMessage` is left unchanged rather than cleared, so a
re-published `failed` post becomes `posted` with its stale errorMessage
still in place. -/
theorem publish_success_updates_post
    (client : PublishClient) (baseUrl : String) (now : Nat) (st : Storage) (postId : Nat)
    (p : Post) (account : TikTokAccount) (publishId : String)
    (hp : getPost st postId = some p)
    (ha : getTikTokAccount st p.tiktokAccountId = some account)
    (hc : client account.accessToken (baseUrl ++ p.videoUrl) (buildPostInfo p) =
      Except.ok publishId) :
    (publish client baseUrl now st postId).2.1 =
      PublishOutcome.ok (some { p with status := PostStatus.posted,
                                       tiktokPostId := some publishId,
                                       postedAt := some now, updatedAt := now }) ∧
    getPost (publish client baseUrl now st postId).1 postId =
      some { p with status := PostStatus.posted, tiktokPostId := some publishId,
                    postedAt := some now, updatedAt := now } ∧
    (getPost (publish client baseUrl now st postId).1 postId).map Post.errorMessage =
      some p.errorMessage := by
  have heq := publish_ok_spec client baseUrl now st postId p account publishId hp ha hc
  rw [heq]
  dsimp only
  refine ⟨?_, ?_, ?_⟩
  · rw [updatePost_snd, getPost_updatePost_self, hp]
    rfl
  · rw [getPost_updatePost_self, getPost_updatePost_self, hp]
    rfl
  · rw [getPost_updatePost_self, getPost_updatePost_self, hp]
    rfl

theorem publish_success_witness :
    (publish (fun _ _ _ => Except.ok "pub1") "h" 7 failedStore 1).2.1 =
      PublishOutcome.ok (some { failedPost with status := PostStatus.posted,
                                                tiktokPostId := some "pub1",
                                                postedAt := some 7, updatedAt := 7 }) ∧
    getPost (publish (fun _ _ _ => Except.ok "pub1") "h" 7 failedStore 1).1 1 =
      some { failedPost with status := PostStatus.posted, tiktokPostId := some "pub1",
                             postedAt := some 7, updatedAt := 7 } ∧
    (getPost (publish (fun _ _ _ => Except.ok "pub1") "h" 7 failedStore 1).1 1).map
        Post.errorMessage = some failedPost.errorMessage :=
  publish_success_updates_post _ "h" 7 failedStore 1 failedPost testAccount "pub1"
    rfl rfl rfl

/-! ## C7 — write ordering within publish -/

/-- C7: within every publish invocation that reaches the remote call, the
`posting` status write is committed before the remote call begins — the
storage snapshot carried by the remote-call event already shows status
`posting` — and the final `posted`/`failed` write is committed in the
storage in effect when the operation returns or raises. -/
theorem publish_write_ordering
    (client : PublishClient) (baseUrl : String) (now : Nat) (st : Storage) (postId : Nat)
    (p : Post) (account : TikTokAccount)
    (hp : getPost st postId = some p)
    (ha : getTikTokAccount st p.tiktokAccountId = some account) :
    ∃ stMid s,
      (publish client baseUrl now st postId).2.2 =
        [PubEvent.wrotePosting stMid, PubEvent.remoteCall stMid,
         PubEvent.wroteFinal s (publish client baseUrl now st postId).1] ∧
      (getPost stMid postId).map Post.status = some PostStatus.posting ∧
      (getPost (publish client baseUrl now st postId).1 postId).map Post.status = some s ∧
      (s = PostStatus.posted ∨ s = PostStatus.failed) := by
  cases hc : client account.accessToken (baseUrl ++ p.videoUrl) (buildPostInfo p) with
  | ok publishId =>
    have heq := publish_ok_spec client baseUrl now st postId p account publishId hp ha hc
    rw [heq]
    dsimp only
    refine ⟨_, PostStatus.posted, rfl, ?_, ?_, Or.inl rfl⟩
    · rw [getPost_updatePost_self, hp]
      rfl
    · rw [getPost_updatePost_self, getPost_updatePost_self, hp]
      rfl
  | error msg =>
    have heq := publish_error_spec client baseUrl now st postId p account msg hp ha hc
    rw [heq]
    dsimp only
    refine ⟨_, PostStatus.failed, rfl, ?_, ?_, Or.inr rfl⟩
    · rw [getPost_updatePost_self, hp]
      rfl
    · rw [getPost_updatePost_self, getPost_updatePost_self, hp]
      rfl

theorem publish_write_ordering_witness :
    ∃ stMid s,
      (publish (mockPostVideoFromUrl 3) "h" 3 testStore 1).2.2 =
        [PubEvent.wrotePosting stMid, PubEvent.remoteCall stMid,
         PubEvent.wroteFinal s (publish (mockPostVideoFromUrl 3) "h" 3 testStore 1).1] ∧
      (getPost stMid 1).map Post.status = some PostStatus.posting ∧
      (getPost (publish (mockPostVideoFromUrl 3) "h" 3 testStore 1).1 1).map Post.status =
        some s ∧
      (s = PostStatus.posted ∨ s = PostStatus.failed) :=
  publish_write_ordering (mockPostVideoFromUrl 3) "h" 3 testStore 1 testPost testAccount
    rfl rfl

/-! ## C10 — no precondition on the current status -/

/-- C10: publish applies no precondition on the post's current status: for
every existing post with an existing account — whatever the current status
`s` is, including `posted` — publish transitions it to `posting`, performs
the remote call, and on success overwrites tiktokPostId and postedAt with
fresh values; no conflict-style rejection based on the current status
exists anywhere on this path. -/
theorem publish_ignores_current_status
    (client : PublishClient) (baseUrl : String) (now : Nat) (st : Storage) (postId : Nat)
    (p : Post) (account : TikTokAccount) (s : PostStatus)
    (hp : getPost st postId = some p)
    (ha : getTikTokAccount st p.tiktokAccountId = some account)
    (_hs : p.status = s) :
    (∃ stMid, PubEvent.remoteCall stMid ∈ (publish client baseUrl now st postId).2.2 ∧
       (getPost stMid postId).map Post.status = some PostStatus.posting) ∧
    (∀ publishId,
       client account.accessToken (baseUrl ++ p.videoUrl) (buildPostInfo p) =
         Except.ok publishId →
       (publish client baseUrl now st postId).2.1 =
         PublishOutcome.ok (some { p with status := PostStatus.posted,
                                          tiktokPostId := some publishId,
                                          postedAt := some now, updatedAt := now })) := by
  constructor
  · cases hc : client account.accessToken (baseUrl ++ p.videoUrl) (buildPostInfo p) with
    | ok publishId =>
      have heq := publish_ok_spec client baseUrl now st postId p account publishId hp ha hc
      rw [heq]
      dsimp only
      refine ⟨_, List.mem_cons_of_mem _ (List.mem_cons_self _ _), ?_⟩
      rw [getPost_updatePost_self, hp]
      rfl
    | error msg =>
      have heq := publish_error_spec client baseUrl now st postId p account msg hp ha hc
      rw [heq]
      dsimp only
      refine ⟨_, List.mem_cons_of_mem _ (List.mem_cons_self _ _), ?_⟩
      rw [getPost_updatePost_self, hp]
      rfl
  · intro publishId hc
    have heq := publish_ok_spec client baseUrl now st postId p account publishId hp ha hc
    rw [heq]
    dsimp only
    rw [updatePost_snd, getPost_updatePost_self, hp]
    rfl

theorem publish_ignores_current_status_witness :
    (∃ stMid, PubEvent.remoteCall stMid ∈
        (publish (fun _ _ _ => Except.ok "new") "h" 9 postedStore 1).2.2 ∧
       (getPost stMid 1).map Post.status = some PostStatus.posting) ∧
    (publish (fun _ _ _ => Except.ok "new") "h" 9 postedStore 1).2.1 =
      PublishOutcome.ok (some { postedPost with status := PostStatus.posted,
                                                tiktokPostId := some "new",
                                                postedAt := some 9, updatedAt := 9 }) :=
  ⟨(publish_ignores_current_status (fun _ _ _ => Except.ok "new") "h" 9 postedStore 1
      postedPost testAccount PostStatus.posted rfl rfl rfl).1,
   (publish_ignores_current_status (fun _ _ _ => Except.ok "new") "h" 9 postedStore 1
      postedPost testAccount PostStatus.posted rfl rfl rfl).2 "new" rfl⟩

/-! ## C6 — 404 conditions of publish -/

/-- C6 counterexample: a post whose connected account row exists but is
inactive (isActive = false) is NOT rejected with a 404 — publish proceeds
to the status write and the remote call (non-empty event trace), refuting
the claimed inactive-account NotFound failure. -/
theorem publish_inactive_account_not_rejected :
    (publish (fun _ _ _ => Except.ok "pub1") "h" 2 inactiveStore 1).2.1 ≠
      PublishOutcome.notFoundAccount ∧
    (publish (fun _ _ _ => Except.ok "pub1") "h" 2 inactiveStore 1).2.1 ≠
      PublishOutcome.notFoundPost ∧
    (publish (fun _ _ _ => Except.ok "pub1") "h" 2 inactiveStore 1).2.2 ≠ [] := by
  decide

/-- C6 (amended): publish answers 404 — with no remote call and no status
write (store returned unchanged, empty event trace) — exactly when the
post is absent or the referenced account row is absent; the account's
isActive flag is never consulted, so an existing-but-inactive account
still proceeds to the status write and the remote call. -/
theorem publish_notFound_conditions
    (client : PublishClient) (baseUrl : String) (now : Nat) (st : Storage) (postId : Nat) :
    (getPost st postId = none →
      publish client baseUrl now st postId = (st, PublishOutcome.notFoundPost, [])) ∧
    (∀ p, getPost st postId = some p → getTikTokAccount st p.tiktokAccountId = none →
      publish client baseUrl now st postId = (st, PublishOutcome.notFoundAccount, [])) ∧
    (∀ p account, getPost st postId = some p →
      getTikTokAccount st p.tiktokAccountId = some account → account.isActive = false →
      (publish client baseUrl now st postId).2.2 ≠ []) := by
  refine ⟨fun hp => publish_notFoundPost_spec client baseUrl now st postId hp,
          fun p hp ha => publish_notFoundAccount_spec client baseUrl now st postId p hp ha,
          fun p account hp ha _ => ?_⟩
  cases hc : client account.accessToken (baseUrl ++ p.videoUrl) (buildPostInfo p) with
  | ok publishId =>
    rw [publish_ok_spec client baseUrl now st postId p account publishId hp ha hc]
    simp
  | error msg =>
    rw [publish_error_spec client baseUrl now st postId p account msg hp ha hc]
    simp

theorem publish_notFound_witness :
    publish (fun _ _ _ => Except.ok "x") "h" 0 emptyStorage 1 =
      (emptyStorage, PublishOutcome.notFoundPost, []) :=
  (publish_notFound_conditions (fun _ _ _ => Except.ok "x") "h" 0 emptyStorage 1).1 rfl

/-! ## C1 — the round-trip invariant -/

theorem mem_updatePost_posts (now : Nat) (st : Storage) (i : Nat) (u : PostUpdate)
    (q : Post) (hq : q ∈ ((updatePost now st i u).1).posts) :
    ∃ p, p ∈ st.posts ∧ (q = p ∨ q = applyPostUpdate now u p) := by
  unfold updatePost at hq
  dsimp only at hq
  rcases List.mem_map.mp hq with ⟨p, hmem, heq⟩
  refine ⟨p, hmem, ?_⟩
  by_cases hid : (p.id == i) = true
  · rw [if_pos hid] at heq
    exact Or.inr heq.symm
  · rw [if_neg hid] at heq
    exact Or.inl heq.symm

theorem postedImpliesIds_posting (now : Nat) (p : Post) :
    postedImpliesIds (applyPostUpdate now { status := some PostStatus.posting } p) := by
  unfold postedImpliesIds
  rw [applyPostUpdate_posting]
  intro h
  exact PostStatus.noConfusion h

theorem postedImpliesIds_success (now : Nat) (publishId : String) (p : Post) :
    postedImpliesIds (applyPostUpdate now
      { status := some PostStatus.posted, tiktokPostId := some publishId,
        postedAt := some now } p) := by
  unfold postedImpliesIds
  rw [applyPostUpdate_success]
  intro _
  exact ⟨rfl, rfl⟩

theorem postedImpliesIds_failure (now : Nat) (msg : String) (p : Post) :
    postedImpliesIds (applyPostUpdate now
      { status := some PostStatus.failed, errorMessage := some msg } p) := by
  unfold postedImpliesIds
  rw [applyPostUpdate_failure]
  intro h
  exact PostStatus.noConfusion h

/-- C1 counterexample: `createPost` accepts a payload carrying status
`posted` with no tiktokPostId and no postedAt (`insertPostSchema` allows
exactly that), and stores it as given — the resulting reachable post has
status `posted` with both fields null, so the round-trip biconditional
does not hold after every createPost. -/
theorem createPost_violates_roundtrip :
    ¬ postedIffIds (createPost 0 emptyStorage badInsert).2 ∧
    (createPost 0 emptyStorage badInsert).2 ∈ (createPost 0 emptyStorage badInsert).1.posts := by
  decide

/-- C1 (amended): the forward half of the invariant — status `posted`
implies tiktokPostId and postedAt non-null — is preserved for every stored
post by publish (through its `posting`, success and failure writes), and
syncAnalytics never modifies post rows at all; the full biconditional, and
preservation under createPost/updatePost with arbitrary payloads, do not
hold (see the counterexample). -/
theorem publish_sync_preserve_posted_invariant
    (client : PublishClient) (mclient : MetricsClient) (baseUrl userId : String)
    (now : Nat) (st : Storage) (postId : Nat)
    (hinv : ∀ p ∈ st.posts, postedImpliesIds p) :
    (∀ q ∈ (publish client baseUrl now st postId).1.posts, postedImpliesIds q) ∧
    (syncAnalytics mclient now st userId).1.posts = st.posts := by
  constructor
  · rcases hgp : getPost st postId with _ | p
    · rw [publish_notFoundPost_spec client baseUrl now st postId hgp]
      exact hinv
    · rcases hga : getTikTokAccount st p.tiktokAccountId with _ | account
      · rw [publish_notFoundAccount_spec client baseUrl now st postId p hgp hga]
        exact hinv
      · rcases hc : client account.accessToken (baseUrl ++ p.videoUrl) (buildPostInfo p)
          with msg | publishId
        · rw [publish_error_spec client baseUrl now st postId p account msg hgp hga hc]
          dsimp only
          intro q hq
          rcases mem_updatePost_posts _ _ _ _ _ hq with ⟨p1, hp1, hq1⟩
          rcases mem_updatePost_posts _ _ _ _ _ hp1 with ⟨p0, hp0, hq0⟩
          rcases hq1 with rfl | rfl
          · rcases hq0 with rfl | rfl
            · exact hinv _ hp0
            · exact postedImpliesIds_posting now p0
          · exact postedImpliesIds_failure now msg _
        · rw [publish_ok_spec client baseUrl now st postId p account publishId hgp hga hc]
          dsimp only
          intro q hq
          rcases mem_updatePost_posts _ _ _ _ _ hq with ⟨p1, hp1, hq1⟩
          rcases mem_updatePost_posts _ _ _ _ _ hp1 with ⟨p0, hp0, hq0⟩
          rcases hq1 with rfl | rfl
          · rcases hq0 with rfl | rfl
            · exact hinv _ hp0
            · exact postedImpliesIds_posting now p0
          · exact postedImpliesIds_success now publishId _
  · exact foldSync_posts mclient now (postedPosts st userId) st

theorem publish_sync_preserve_witness :
    (∀ q ∈ (publish (fun _ _ _ => Except.ok "w") "h" 4 testStore 1).1.posts,
       postedImpliesIds q) ∧
    (syncAnalytics (fun _ _ => Except.error "down") 4 testStore "u1").1.posts =
      testStore.posts :=
  publish_sync_preserve_posted_invariant (fun _ _ _ => Except.ok "w")
    (fun _ _ => Except.error "down") "h" "u1" 4 testStore 1 (by decide)

/-! ## Upsert behaviour lemmas -/

theorem upsert_insert_case (now : Nat) (st : Storage) (d : InsertPostAnalytics)
    (hnone : getPostAnalytics st d.postId = none) :
    ((upsertPostAnalytics now st d).1).analytics =
      st.analytics ++ [analyticsRowOfInsert st.nextAnalyticsId now d] := by
  have hany : (st.analytics.any fun r => r.postId == d.postId) = false :=
    List.any_eq_false.mpr (List.find?_eq_none.mp hnone)
  simp only [upsertPostAnalytics, hany]
  rfl

theorem getPostAnalytics_upsert_insert (now : Nat) (st : Storage) (d : InsertPostAnalytics)
    (hnone : getPostAnalytics st d.postId = none) :
    getPostAnalytics ((upsertPostAnalytics now st d).1) d.postId =
      some (analyticsRowOfInsert st.nextAnalyticsId now d) := by
  have hrows := upsert_insert_case now st d hnone
  unfold getPostAnalytics
  rw [hrows, List.find?_append]
  unfold getPostAnalytics at hnone
  rw [hnone]
  simp [analyticsRowOfInsert_postId]

theorem getPostAnalytics_upsert_update (now : Nat) (st : Storage) (d : InsertPostAnalytics)
    (r : PostAnalyticsRow) (hr : getPostAnalytics st d.postId = some r) :
    getPostAnalytics ((upsertPostAnalytics now st d).1) d.postId =
      some (applyAnalyticsUpdate now d r) := by
  unfold getPostAnalytics at hr
  have hany : (st.analytics.any fun x => x.postId == d.postId) = true :=
    List.any_eq_true.mpr ⟨r, List.mem_of_find?_eq_some hr,
      @List.find?_some PostAnalyticsRow (fun x => x.postId == d.postId) r st.analytics hr⟩
  simp only [upsertPostAnalytics, hany, if_true]
  unfold getPostAnalytics
  dsimp only
  rw [find?_map_keyed_self PostAnalyticsRow.postId (applyAnalyticsUpdate now d) d.postId
    (fun a ha => by rw [applyAnalyticsUpdate_postId, ha]) st.analytics, hr]
  rfl

theorem upsert_update_length (now : Nat) (st : Storage) (d : InsertPostAnalytics)
    (r : PostAnalyticsRow) (hr : getPostAnalytics st d.postId = some r) :
    ((upsertPostAnalytics now st d).1).analytics.length = st.analytics.length := by
  unfold getPostAnalytics at hr
  have hany : (st.analytics.any fun x => x.postId == d.postId) = true :=
    List.any_eq_true.mpr ⟨r, List.mem_of_find?_eq_some hr,
      @List.find?_some PostAnalyticsRow (fun x => x.postId == d.postId) r st.analytics hr⟩
  simp only [upsertPostAnalytics, hany, if_true]
  exact List.length_map _ _

theorem atMostOneRow_upsert (now : Nat) (st : Storage) (d : InsertPostAnalytics)
    (pid : Nat) (h : atMostOneRow st pid) :
    atMostOneRow ((upsertPostAnalytics now st d).1) pid := by
  unfold atMostOneRow at h ⊢
  unfold upsertPostAnalytics
  split
  · dsimp only
    rw [length_filter_map_keyed PostAnalyticsRow.postId (applyAnalyticsUpdate now d) d.postId
      pid (fun a ha => by rw [applyAnalyticsUpdate_postId, ha]) st.analytics]
    exact h
  · dsimp only
    rename_i hany
    rw [List.filter_append]
    by_cases hpid : d.postId = pid
    · subst hpid
      have hnil : (st.analytics.filter fun r => r.postId == d.postId) = [] := by
        rw [List.filter_eq_nil_iff]
        intro a ha
        have := List.any_eq_false.mp (Bool.eq_false_iff.mpr hany) a ha
        exact this
      rw [hnil]
      simpa using List.length_filter_le (fun r => r.postId == d.postId)
        [analyticsRowOfInsert st.nextAnalyticsId now d]
    · have hnil : (([analyticsRowOfInsert st.nextAnalyticsId now d]).filter
          fun r => r.postId == pid) = [] := by
        rw [List.filter_eq_nil_iff]
        intro a ha
        rw [List.mem_singleton] at ha
        subst ha
        simp [analyticsRowOfInsert_postId, hpid]
      rw [hnil, List.append_nil]
      exact h

/-! ## C5 — upsert semantics of the analytics repository -/

/-- C5: upsertPostAnalytics has insert-or-overwrite-by-postId semantics:
when no row exists for the payload's post id, exactly one new row is
appended (with the metric defaults applied) and is found by a subsequent
lookup; when a row exists, that row is overwritten in place — same row id,
metric fields and updatedAt replaced, table length unchanged; and the
at-most-one-row-per-post-id property is preserved by a single upsert and
by any sequence of upserts. -/
theorem upsertPostAnalytics_semantics
    (now : Nat) (st : Storage) (d : InsertPostAnalytics) :
    (getPostAnalytics st d.postId = none →
      ((upsertPostAnalytics now st d).1).analytics =
        st.analytics ++ [analyticsRowOfInsert st.nextAnalyticsId now d] ∧
      getPostAnalytics ((upsertPostAnalytics now st d).1) d.postId =
        some (analyticsRowOfInsert st.nextAnalyticsId now d)) ∧
    (∀ r, getPostAnalytics st d.postId = some r →
      getPostAnalytics ((upsertPostAnalytics now st d).1) d.postId =
        some (applyAnalyticsUpdate now d r) ∧
      (applyAnalyticsUpdate now d r).id = r.id ∧
      (applyAnalyticsUpdate now d r).updatedAt = now ∧
      ((upsertPostAnalytics now st d).1).analytics.length = st.analytics.length) ∧
    (∀ pid, atMostOneRow st pid → atMostOneRow ((upsertPostAnalytics now st d).1) pid) ∧
    (∀ ds : List InsertPostAnalytics, ∀ st0 : Storage, (∀ q, atMostOneRow st0 q) →
      ∀ pid, atMostOneRow (ds.foldl (fun s x => (upsertPostAnalytics now s x).1) st0) pid) := by
  refine ⟨fun hnone => ⟨upsert_insert_case now st d hnone,
                        getPostAnalytics_upsert_insert now st d hnone⟩,
          fun r hr => ⟨getPostAnalytics_upsert_update now st d r hr, rfl, rfl,
                       upsert_update_length now st d r hr⟩,
          fun pid h => atMostOneRow_upsert now st d pid h,
          ?_⟩
  intro ds
  induction ds with
  | nil =>
    intro st0 h pid
    exact h pid
  | cons x t ih =>
    intro st0 h pid
    rw [List.foldl_cons]
    exact ih _ (fun q => atMostOneRow_upsert now st0 x q (h q)) pid

theorem upsertPostAnalytics_semantics_witness :
    getPostAnalytics ((upsertPostAnalytics 3 emptyStorage sampleMetricsInsert).1)
        sampleMetricsInsert.postId =
      some (analyticsRowOfInsert emptyStorage.nextAnalyticsId 3 sampleMetricsInsert) ∧
    atMostOneRow ((upsertPostAnalytics 3 emptyStorage sampleMetricsInsert).1) 1 :=
  ⟨((upsertPostAnalytics_semantics 3 emptyStorage sampleMetricsInsert).1 rfl).2,
   (upsertPostAnalytics_semantics 3 emptyStorage sampleMetricsInsert).2.2.1 1 (by decide)⟩

/-! ## One-iteration behaviour of the sync loop -/

theorem syncOne_upsert_spec (client : MetricsClient) (now : Nat) (st : Storage) (p : Post)
    (tpid : String) (account : TikTokAccount) (mapping : List (String × Metrics))
    (m : Metrics)
    (htp : p.tiktokPostId = some tpid)
    (htruthy : truthyStr p.tiktokPostId = true)
    (hacct : getTikTokAccount st p.tiktokAccountId = some account)
    (hc : client account.accessToken [tpid] = Except.ok mapping)
    (hm : (mapping.find? fun e => e.1 == tpid).map (fun e => e.2) = some m) :
    syncOne client now st p =
      (upsertPostAnalytics now st
        { postId := p.id, viewCount := some m.views, likeCount := some m.likes,
          commentCount := some m.comments, shareCount := some m.shares,
          profileViewCount := some m.profile_view,
          averagePlayDuration := some m.video_view_duration_avg }).1 := by
  have hts : truthyStr (some tpid) = true := by rw [← htp]; exact htruthy
  simp [syncOne, htp, hts, hacct, hc, hm]

theorem syncOne_skip_spec (client : MetricsClient) (now : Nat) (st : Storage) (p : Post)
    (tpid : String) (account : TikTokAccount) (mapping : List (String × Metrics))
    (htp : p.tiktokPostId = some tpid)
    (htruthy : truthyStr p.tiktokPostId = true)
    (hacct : getTikTokAccount st p.tiktokAccountId = some account)
    (hc : client account.accessToken [tpid] = Except.ok mapping)
    (hm : (mapping.find? fun e => e.1 == tpid).map (fun e => e.2) = none) :
    syncOne client now st p = st := by
  have hts : truthyStr (some tpid) = true := by rw [← htp]; exact htruthy
  simp [syncOne, htp, hts, hacct, hc, hm]

theorem nodup_split_ids (l₁ l₂ : List Post) (p : Post)
    (h : ((l₁ ++ p :: l₂).map Post.id).Nodup) :
    (∀ q ∈ l₁, q.id ≠ p.id) ∧ (∀ q ∈ l₂, q.id ≠ p.id) := by
  rw [List.map_append, List.map_cons] at h
  constructor
  · intro q hq hqe
    have hdisj := (List.nodup_append.mp h).2.2
    exact hdisj (hqe ▸ List.mem_map_of_mem Post.id hq) (List.mem_cons_self _ _)
  · intro q hq hqe
    have hcons := (List.nodup_append.mp h).2.1
    exact (List.nodup_cons.mp hcons).1 (hqe ▸ List.mem_map_of_mem Post.id hq)

/-! ## C4 — partial-failure semantics of the analytics sweep -/

/-- C4: a remote-client failure for one post does not stop the sweep: for
every post in the sweep's posted-post list — whatever the client does on
the other posts, including failing on them — if that post's account
exists and its own metrics fetch succeeds with a mapping entry, then after
syncAnalytics an analytics row carrying exactly those metrics and a fresh
updatedAt exists for it, and syncAnalytics returns the aggregate success
message rather than propagating any per-post error. -/
theorem syncAnalytics_partial_failure
    (client : MetricsClient) (now : Nat) (st : Storage) (userId : String)
    (p : Post) (tpid : String) (account : TikTokAccount)
    (mapping : List (String × Metrics)) (m : Metrics)
    (hnodup : ((postedPosts st userId).map Post.id).Nodup)
    (hmem : p ∈ postedPosts st userId)
    (htp : p.tiktokPostId = some tpid)
    (hacct : getTikTokAccount st p.tiktokAccountId = some account)
    (hc : client account.accessToken [tpid] = Except.ok mapping)
    (hm : (mapping.find? fun e => e.1 == tpid).map (fun e => e.2) = some m) :
    (∃ row, getPostAnalytics (syncAnalytics client now st userId).1 p.id = some row ∧
       row.postId = p.id ∧ row.viewCount = m.views ∧ row.likeCount = m.likes ∧
       row.commentCount = m.comments ∧ row.shareCount = m.shares ∧
       row.profileViewCount = m.profile_view ∧
       row.averagePlayDuration = m.video_view_duration_avg ∧ row.updatedAt = now) ∧
    (syncAnalytics client now st userId).2 = "Analytics synced successfully" := by
  refine ⟨?_, rfl⟩
  obtain ⟨l₁, l₂, hsplit⟩ := List.append_of_mem hmem
  have htruthy : truthyStr p.tiktokPostId = true := by
    have hfm := hmem
    unfold postedPosts at hfm
    rcases List.mem_filter.mp hfm with ⟨_, hcond⟩
    exact ((Bool.and_eq_true _ _).mp hcond).2
  have hids := nodup_split_ids l₁ l₂ p (by rw [← hsplit]; exact hnodup)
  unfold syncAnalytics
  dsimp only
  rw [hsplit, List.foldl_append, List.foldl_cons]
  have hacct1 : getTikTokAccount (l₁.foldl (fun s q => syncOne client now s q) st)
      p.tiktokAccountId = some account := by
    rw [getTikTokAccount_foldSync]
    exact hacct
  rw [syncOne_upsert_spec client now _ p tpid account mapping m htp htruthy hacct1 hc hm]
  rw [foldSync_analytics_other client now l₂ _ p.id hids.2]
  rcases hprev : getPostAnalytics (l₁.foldl (fun s q => syncOne client now s q) st) p.id
    with _ | r
  · exact ⟨_, getPostAnalytics_upsert_insert now _ _ hprev,
      rfl, rfl, rfl, rfl, rfl, rfl, rfl, rfl⟩
  · exact ⟨_, getPostAnalytics_upsert_update now _ _ r hprev,
      rfl, rfl, rfl, rfl, rfl, rfl, rfl, rfl⟩

theorem syncAnalytics_partial_failure_witness :
    (∃ row, getPostAnalytics (syncAnalytics failingOneClient 8 syncStore "u1").1
        (syncPost 1 "v1").id = some row ∧
       row.postId = (syncPost 1 "v1").id ∧ row.viewCount = sampleMetrics.views ∧
       row.likeCount = sampleMetrics.likes ∧ row.commentCount = sampleMetrics.comments ∧
       row.shareCount = sampleMetrics.shares ∧
       row.profileViewCount = sampleMetrics.profile_view ∧
       row.averagePlayDuration = sampleMetrics.video_view_duration_avg ∧
       row.updatedAt = 8) ∧
    (syncAnalytics failingOneClient 8 syncStore "u1").2 =
      "Analytics synced successfully" :=
  syncAnalytics_partial_failure failingOneClient 8 syncStore "u1" (syncPost 1 "v1") "v1"
    testAccount [("v1", sampleMetrics)] sampleMetrics (by decide) (by decide) rfl rfl
    rfl rfl

/-! ## C8 — unknown remote id performs no upsert -/

/-- C8: for every posted post in the sweep whose remote post id the client
does not recognise — the returned mapping has no entry for it —
syncAnalytics performs no upsert for that post: its analytics row, or the
absence of one, is exactly what it was before the sweep. -/
theorem syncAnalytics_unknown_id_leaves_row
    (client : MetricsClient) (now : Nat) (st : Storage) (userId : String)
    (p : Post) (tpid : String) (account : TikTokAccount)
    (mapping : List (String × Metrics))
    (hnodup : ((postedPosts st userId).map Post.id).Nodup)
    (hmem : p ∈ postedPosts st userId)
    (htp : p.tiktokPostId = some tpid)
    (hacct : getTikTokAccount st p.tiktokAccountId = some account)
    (hc : client account.accessToken [tpid] = Except.ok mapping)
    (hm : mapping.find? (fun e => e.1 == tpid) = none) :
    getPostAnalytics (syncAnalytics client now st userId).1 p.id =
      getPostAnalytics st p.id ∧
    (syncAnalytics client now st userId).2 = "Analytics synced successfully" := by
  refine ⟨?_, rfl⟩
  obtain ⟨l₁, l₂, hsplit⟩ := List.append_of_mem hmem
  have htruthy : truthyStr p.tiktokPostId = true := by
    have hfm := hmem
    unfold postedPosts at hfm
    rcases List.mem_filter.mp hfm with ⟨_, hcond⟩
    exact ((Bool.and_eq_true _ _).mp hcond).2
  have hids := nodup_split_ids l₁ l₂ p (by rw [← hsplit]; exact hnodup)
  unfold syncAnalytics
  dsimp only
  rw [hsplit, List.foldl_append, List.foldl_cons]
  have hacct1 : getTikTokAccount (l₁.foldl (fun s q => syncOne client now s q) st)
      p.tiktokAccountId = some account := by
    rw [getTikTokAccount_foldSync]
    exact hacct
  rw [syncOne_skip_spec client now _ p tpid account mapping htp htruthy hacct1 hc
    (by rw [hm]; rfl)]
  rw [foldSync_analytics_other client now l₂ _ p.id hids.2]
  exact foldSync_analytics_other client now l₁ st p.id hids.1

theorem syncAnalytics_unknown_id_witness :
    getPostAnalytics (syncAnalytics emptyMapClient 2 postedStore "u1").1 1 =
      getPostAnalytics postedStore 1 ∧
    (syncAnalytics emptyMapClient 2 postedStore "u1").2 =
      "Analytics synced successfully" :=
  syncAnalytics_unknown_id_leaves_row emptyMapClient 2 postedStore "u1" postedPost "old"
    testAccount [] (by decide) (by decide) rfl rfl rfl rfl
